import Mathlib

/-!
Verification of the semantic-cache-augmented query pipeline of the
`cf-ai-observability-agent` repository.

The development shallowly embeds the pieces of the source that carry the
algorithmic content of the spec:

* `SemanticMemory.search` (src/src/semantic-memory.ts) — vector-cache lookup
  with a similarity threshold;
* `LLMOrchestrator.classifyIntent` / `mapToolToIntentType` / `mapToolToMCP`
  (llm-orchestrator) — intent classification with its fallbacks;
* `MCPRouter.route` (src/src/mcp-router.ts) — capability routing with its
  catch-and-degrade error handling;
* `ObservabilityAgent.query`, `addToHistory`, `clearHistory`, `connectMCPs`,
  `getHistory`, `getStats`, `createErrorResponse`,
  `getConversationContext` (agent class) — the per-session state machine.

External collaborators (the embedding service, the vector index, the two
LLM oracles, the capability providers, keyed storage) are modelled as
explicit oracle outcomes supplied in a `QueryEnv`, exactly as the spec
scopes them out as interfaces.  Similarity scores and confidences are
modelled as exact rationals.  JavaScript's `Date.now()` is a `Nat`
parameter, and `crypto`-free: identifiers and timestamps play no role in
the claims proved here.
-/

/-- Role of a chat message (`ChatMessage.role` in types). -/
inductive Role where
  | system
  | user
  | assistant
deriving DecidableEq, Repr

/-- Structure `ChatMessage` from the repository's type definitions. -/
structure ChatMessage where
  role : Role
  content : String
  timestamp : Nat
deriving DecidableEq, Repr

/-- Per-capability MCP connection flags (`AgentState.mcpConnections`). -/
structure MCPConnections where
  observability : Bool
  documentation : Bool
  bindings : Bool
deriving DecidableEq, Repr

/-- Per-capability call counters (`AgentState.metadata.mcpCalls`). -/
structure MCPCalls where
  observability : Nat
  documentation : Nat
  bindings : Nat
deriving DecidableEq, Repr

/-- Session metadata counters (`AgentState.metadata`). -/
structure Metadata where
  totalQueries : Nat
  cacheHits : Nat
  mcpCalls : MCPCalls
deriving DecidableEq, Repr

/-- Structure `AgentState` stored in the Durable Object. -/
structure AgentState where
  sessionId : String
  conversationHistory : List ChatMessage
  mcpConnections : MCPConnections
  lastActivity : Nat
  metadata : Metadata
deriving DecidableEq, Repr

/-- The initial state built in the `ObservabilityAgent` constructor:
empty history, no connections, all counters zero. -/
def initialState (sessionId : String) (now : Nat) : AgentState :=
  { sessionId := sessionId
    conversationHistory := []
    mcpConnections := { observability := false, documentation := false, bindings := false }
    lastActivity := now
    metadata :=
      { totalQueries := 0
        cacheHits := 0
        mcpCalls := { observability := 0, documentation := 0, bindings := 0 } } }

/-! ## Semantic memory (src/src/semantic-memory.ts) -/

/-- Constant `SIMILARITY_THRESHOLD` with value 0.85 from semantic-memory.ts. -/
def SIMILARITY_THRESHOLD : ℚ := 85 / 100

/-- One match returned by the vector index: a similarity score plus the
stored metadata `{question, answer, mcpSource, timestamp}`. -/
structure VMatch where
  score : ℚ
  question : String
  answer : String
  mcpSource : String
  timestamp : Nat
deriving DecidableEq, Repr

/-- Structure `MemorySearchResult` from the repository's type definitions. -/
structure MemorySearchResult where
  score : ℚ
  question : String
  answer : String
  mcpSource : String
  timestamp : Nat
deriving DecidableEq, Repr

/-- Model of `SemanticMemory.search`.  The embedding oracle is abstracted by the
flag `embedOk` (`generateEmbedding` returning null — failure or malformed
output — yields `false`), and the vector index's reply by the ordered
match list `matchList` (named `results.matches` in the source, a Lean
keyword here).  The source checks
`results.matches.length > 0 && results.matches[0].score >= threshold`
and on success builds a `MemorySearchResult` from the top match's
metadata; on embedding failure, or no match above threshold, it returns
null. -/
def search (embedOk : Bool) (matchList : List VMatch) (threshold : ℚ) :
    Option MemorySearchResult :=
  if embedOk then
    match matchList with
    | [] => none
    | m :: _ =>
      if threshold ≤ m.score then
        some { score := m.score, question := m.question, answer := m.answer
               mcpSource := m.mcpSource, timestamp := m.timestamp }
      else none
  else none

/-- The `MemorySearchResult` built from the top match, as in `search`. -/
def toResult (m : VMatch) : MemorySearchResult :=
  { score := m.score, question := m.question, answer := m.answer
    mcpSource := m.mcpSource, timestamp := m.timestamp }

/-! ## LLM orchestrator (llm-orchestrator.ts) -/

/-- Enumeration `Intent.type` from the repository's type definitions. -/
inductive IntentType where
  | error_logs
  | performance
  | how_to
  | api_reference
  | list_resources
  | inspect_config
  | general
deriving DecidableEq, Repr

/-- Structure `Intent`.  Its `targetMCP` is an optional string at runtime (JavaScript
erases the literal type); parameters are modelled as an association
list. -/
structure Intent where
  type : IntentType
  confidence : ℚ
  targetMCP : Option String
  parameters : List (String × String)
deriving DecidableEq, Repr

/-- One tool call in the classification oracle's response: a tool name and
optionally the `arguments` object. -/
structure ToolCall where
  name : String
  arguments : Option (List (String × String))
deriving DecidableEq, Repr

/-- Outcome of the classification oracle call (`this.ai.run(HERMES_MODEL, ...)`):
either the call throws, or it returns a response carrying a (possibly
empty) `tool_calls` list.  A missing or falsy `tool_calls` field is the
empty list. -/
inductive ClassifyOutcome where
  | throws
  | resp (tool_calls : List ToolCall)
deriving DecidableEq, Repr

/-- Model of `LLMOrchestrator.mapToolToIntentType`: static lookup, `general` for any
name absent from the map. -/
def mapToolToIntentType (toolName : String) : IntentType :=
  if toolName = "query_observability" then .error_logs
  else if toolName = "search_docs" then .how_to
  else if toolName = "query_bindings" then .list_resources
  else .general

/-- Model of `LLMOrchestrator.mapToolToMCP`: static lookup, null for any name absent
from the map. -/
def mapToolToMCP (toolName : String) : Option String :=
  if toolName = "query_observability" then some "observability"
  else if toolName = "search_docs" then some "documentation"
  else if toolName = "query_bindings" then some "bindings"
  else none

/-- Model of `LLMOrchestrator.classifyIntent`.  With a non-empty `tool_calls` list it
maps the first tool call through the two static tables with confidence
0.9 and the oracle-supplied arguments (defaulting to empty); with no tool
selected it returns the general intent with confidence 0.5; if the oracle
call throws, the catch block returns the general intent with confidence
0.3. -/
def classifyIntent (outcome : ClassifyOutcome) : Intent :=
  match outcome with
  | .resp (toolCall :: _) =>
    { type := mapToolToIntentType toolCall.name
      confidence := 9 / 10
      targetMCP := mapToolToMCP toolCall.name
      parameters := toolCall.arguments.getD [] }
  | .resp [] =>
    { type := .general, confidence := 5 / 10, targetMCP := none, parameters := [] }
  | .throws =>
    { type := .general, confidence := 3 / 10, targetMCP := none, parameters := [] }

/-- Outcome of a generation oracle call: it throws, returns a response
without the expected text field (`response.response` falsy), or returns
text. -/
inductive GenOutcome where
  | throws
  | malformed
  | ok (text : String)
deriving DecidableEq, Repr

/-! ## MCP router (src/src/mcp-router.ts) -/

/-- The structured error payload the router returns when a capability call
fails: `{error: true, message, suggestion}`. -/
structure ErrPayload where
  error : Bool
  message : String
  suggestion : String
deriving DecidableEq, Repr

/-- The `data` field of an `MCPResult`: null, a provider's structured data
(abstracted as an association list of fields), or the router's error
payload. -/
inductive MCPData where
  | null
  | obj (fields : List (String × String))
  | err (e : ErrPayload)
deriving DecidableEq, Repr

/-- Structure `MCPResult` from the repository's type definitions. -/
structure MCPResult where
  source : String
  data : MCPData
  timestamp : Nat
  cached : Bool
deriving DecidableEq, Repr

/-- The `suggestion` string of the router's error payload. -/
def routerSuggestion : String :=
  "Please try rephrasing your query or check your Cloudflare account permissions."

/-- The body of `MCPRouter.route`'s try block: a switch over
`intent.targetMCP` dispatching to one of the three providers, whose
default case throws `Unknown MCP target`.  The three capability providers
are external collaborators (spec section 1) and are abstracted by the
`provider` oracle, which may itself fail with an error message. -/
def routeSwitch (provider : String → Except String MCPData) (t : String) :
    Except String MCPData :=
  if t = "observability" then provider t
  else if t = "documentation" then provider t
  else if t = "bindings" then provider t
  else .error ("Unknown MCP target: " ++ t)

/-- Model of `MCPRouter.route`.  With no target capability it returns the default
result (source tag `documentation`, null data).  Otherwise it runs the
switch; any failure is caught and converted into a non-throwing
`MCPResult` whose source is the failing capability and whose data is the
structured error payload. -/
def route (provider : String → Except String MCPData) (now : Nat)
    (intent : Intent) : MCPResult :=
  match intent.targetMCP with
  | none =>
    { source := "documentation", data := .null, timestamp := now, cached := false }
  | some t =>
    match routeSwitch provider t with
    | .ok d => { source := t, data := d, timestamp := now, cached := false }
    | .error msg =>
      { source := t
        data := .err { error := true, message := msg, suggestion := routerSuggestion }
        timestamp := now
        cached := false }

/-- Abstraction of `JSON.stringify(mcpData, null, 2)` as used by the
orchestrator's fallback: some textual serialization of the data. -/
def serializeData : MCPData → String
  | .null => "null"
  | .obj fields => String.intercalate ", " (fields.map (fun p => p.1 ++ ": " ++ p.2))
  | .err e =>
    "error: " ++ (if e.error then "true" else "false")
      ++ ", message: " ++ e.message ++ ", suggestion: " ++ e.suggestion

/-- Model of `LLMOrchestrator.createFallbackResponse`: with truthy MCP data, echo it
as raw structured text behind an apology; otherwise a generic apologetic
retry message.  (`null` is the only falsy `mcpData` value reachable
here.) -/
def createFallbackResponse (mcpData : MCPData) : String :=
  match mcpData with
  | .null =>
    "I apologize, but I encountered an error processing your request. Please try again or rephrase your question."
  | d =>
    "I found some information related to your query, but I'm having trouble formatting it. Here's the raw data:\n\n"
      ++ serializeData d

/-- Model of `LLMOrchestrator.synthesize`.  The Llama call is abstracted by
`outcome`; a textual response is returned as-is, and both the malformed
case and the thrown case fall back to `createFallbackResponse`.  The
`query` and `context` arguments only shape the prompt and do not affect
the returned value. -/
def synthesize (outcome : GenOutcome) (query : String) (mcpData : MCPData)
    (context : String) : String :=
  match outcome with
  | .ok text => text
  | .malformed => createFallbackResponse mcpData
  | .throws => createFallbackResponse mcpData

/-- Model of `LLMOrchestrator.generateResponse` (the spec's `generateDirect`): the
oracle's text on success, and two distinct fixed fallback strings for a
malformed response and for a thrown call. -/
def generateResponse (outcome : GenOutcome) (query : String) : String :=
  match outcome with
  | .ok text => text
  | .malformed =>
    "I understand your question, but I need more specific information to help. Could you provide more details?"
  | .throws =>
    "I apologize, but I encountered an error processing your request. Please try rephrasing your question."

/-! ## Session conversation manager (the `ObservabilityAgent` class) -/

/-- JavaScript's `(x).toFixed(1)` for the non-negative rationals arising as
`score * 100`: the integer n with `n / 10` closest to the value, larger n
on ties, printed with one decimal digit. -/
def toFixed1 (q : ℚ) : String :=
  let n : ℤ := Int.floor (q * 10 + 1 / 2)
  toString (n / 10) ++ "." ++ toString (n % 10)

/-- The annotated answer string returned by `ObservabilityAgent.query` on a
cache hit. -/
def cachedAnswerString (cachedResult : MemorySearchResult) : String :=
  "[Cached Answer - " ++ cachedResult.mcpSource ++ "]\n\n" ++ cachedResult.answer
    ++ "\n\n_This answer was retrieved from memory (similarity: "
    ++ toFixed1 (cachedResult.score * 100) ++ "%)_"

/-- Model of `ObservabilityAgent.createErrorResponse`: the apologetic template, with
the caught error's message interpolated after the first sentence. -/
def createErrorResponse (message : String) : String :=
  "I apologize, but I encountered an error processing your request: " ++ message
    ++ "\n\nPlease try:\n- Rephrasing your question\n- Asking a more specific question\n- Checking if your Cloudflare account has the necessary permissions"

/-- Model of `ObservabilityAgent.addToHistory`: push the message, then keep only the
last 20 (`slice(-20)`) when the length exceeds 20. -/
def addToHistory (history : List ChatMessage) (role : Role) (content : String)
    (now : Nat) : List ChatMessage :=
  let h := history ++ [{ role := role, content := content, timestamp := now }]
  if h.length > 20 then h.drop (h.length - 20) else h

/-- Display name of a role, as interpolated in template strings. -/
def roleString : Role → String
  | .system => "system"
  | .user => "user"
  | .assistant => "assistant"

/-- Model of `ObservabilityAgent.getConversationContext`: last 4 messages
(`slice(-4)`), each `role: content` with content truncated to 200
characters, joined by newlines, empty string on empty history. -/
def getConversationContext (history : List ChatMessage) : String :=
  let recent := history.drop (history.length - 4)
  match recent with
  | [] => ""
  | _ =>
    String.intercalate "\n"
      (recent.map (fun msg => roleString msg.role ++ ": " ++ msg.content.take 200))

/-- Model of `ObservabilityAgent.incrementMCPCounter`.  The source indexes
`mcpCalls[source]` with `source` statically typed as one of the three
capability names; the final branch is unreachable from this pipeline's
values. -/
def incrementMCPCounter (source : String) (calls : MCPCalls) : MCPCalls :=
  if source = "observability" then { calls with observability := calls.observability + 1 }
  else if source = "documentation" then { calls with documentation := calls.documentation + 1 }
  else if source = "bindings" then { calls with bindings := calls.bindings + 1 }
  else calls

/-- Model of `ObservabilityAgent.clearHistory`: reset the conversation history to
empty (and persist, which the model treats as a no-op). -/
def clearHistory (s : AgentState) : AgentState :=
  { s with conversationHistory := [] }

/-- Model of `ObservabilityAgent.connectMCPs`: mark all three MCP connections as
established. -/
def connectMCPs (s : AgentState) : AgentState :=
  { s with mcpConnections := { observability := true, documentation := true, bindings := true } }

/-- Model of `ObservabilityAgent.getHistory`: the last 10 messages (`slice(-10)`). -/
def getHistory (s : AgentState) : List ChatMessage :=
  s.conversationHistory.drop (s.conversationHistory.length - 10)

/-- Model of `ObservabilityAgent.getStats`: the metadata counters. -/
def getStats (s : AgentState) : Metadata :=
  s.metadata

/-- All the external-collaborator outcomes one `query` invocation can
observe, plus the clock.  `crash` injects an unexpected exception escaping
the inner handlers of the try block (every modelled step is itself
non-throwing); `embedOk` and `indexMatches` drive the semantic-cache
search, `classifyResp` the classification oracle, `provider` the
capability providers, and `synthResp` / `genResp` the two generation
calls. -/
structure QueryEnv where
  now : Nat
  crash : Option String
  embedOk : Bool
  indexMatches : List VMatch
  classifyResp : ClassifyOutcome
  provider : String → Except String MCPData
  synthResp : GenOutcome
  genResp : GenOutcome

/-- The shared tail of `ObservabilityAgent.query`'s miss path (steps 4-6):
best-effort store in semantic memory (external, no state field), append
the user and assistant turns, persist, and return the response. -/
def finishQuery (env : QueryEnv) (userMessage response : String)
    (s : AgentState) : String × AgentState :=
  let history := addToHistory s.conversationHistory .user userMessage env.now
  let history := addToHistory history .assistant response env.now
  (response, { s with conversationHistory := history })

/-- Model of `ObservabilityAgent.query`: bump activity and the total-query counter;
then, inside the try block, consult the semantic cache and on a hit bump
the cache-hit counter and return the annotated cached answer without
touching history; on a miss classify, optionally route and count the MCP
call, synthesize (or generate directly), store, append both turns and
return.  Any exception escaping the try block is converted by the catch
into `createErrorResponse`.  Returns the answer string and the updated
state. -/
def query (env : QueryEnv) (userMessage : String) (s : AgentState) :
    String × AgentState :=
  let s := { s with
    lastActivity := env.now
    metadata := { s.metadata with totalQueries := s.metadata.totalQueries + 1 } }
  match env.crash with
  | some errMessage => (createErrorResponse errMessage, s)
  | none =>
    match search env.embedOk env.indexMatches SIMILARITY_THRESHOLD with
    | some cachedResult =>
      let s := { s with
        metadata := { s.metadata with cacheHits := s.metadata.cacheHits + 1 } }
      (cachedAnswerString cachedResult, s)
    | none =>
      let intent := classifyIntent env.classifyResp
      match intent.targetMCP with
      | some _ =>
        let mcpResult := route env.provider env.now intent
        let s := { s with
          metadata := { s.metadata with
            mcpCalls := incrementMCPCounter mcpResult.source s.metadata.mcpCalls } }
        let response :=
          synthesize env.synthResp userMessage mcpResult.data
            (getConversationContext s.conversationHistory)
        finishQuery env userMessage response s
      | none =>
        let response := generateResponse env.genResp userMessage
        finishQuery env userMessage response s

/-- The operations the agent exposes to its caller, each paired with the
oracle outcomes it consumes. -/
inductive Op where
  | opQuery (env : QueryEnv) (userMessage : String)
  | opClearHistory
  | opConnectMCPs
  | opGetHistory
  | opGetStats

/-- State transition of one operation (`getHistory` and `getStats` are
read-only). -/
def applyOp (s : AgentState) : Op → AgentState
  | .opQuery env userMessage => (query env userMessage s).2
  | .opClearHistory => clearHistory s
  | .opConnectMCPs => connectMCPs s
  | .opGetHistory => s
  | .opGetStats => s

/-- The state reached from the initial state by a sequence of operations. -/
def runOps (sessionId : String) (now : Nat) (ops : List Op) : AgentState :=
  ops.foldl applyOp (initialState sessionId now)

/-! ## Derived definitions used by the statements -/

/-- Appending a sequence of messages one by one through `addToHistory`. -/
def appendMessages (history : List ChatMessage) (msgs : List ChatMessage) :
    List ChatMessage :=
  msgs.foldl (fun acc m => addToHistory acc m.role m.content m.timestamp) history

/-- The history shape maintained by the agent: an even-length list of
strictly alternating user/assistant pairs. -/
def alternatingUA : List ChatMessage → Bool
  | [] => true
  | u :: a :: rest =>
    decide (u.role = Role.user) && decide (a.role = Role.assistant) && alternatingUA rest
  | [_] => false

/-- Twenty-five concrete messages, for exercising the history cap. -/
def msgs25 : List ChatMessage :=
  (List.range 25).map (fun i => { role := Role.user, content := "m", timestamp := i })

/-- A baseline oracle environment for concrete runs: cache empty, no
crash, classification selects nothing, providers succeed. -/
def envBase : QueryEnv :=
  { now := 5
    crash := none
    embedOk := true
    indexMatches := []
    classifyResp := ClassifyOutcome.resp []
    provider := fun _ => Except.ok MCPData.null
    synthResp := GenOutcome.ok "synthesized"
    genResp := GenOutcome.ok "direct answer" }

/-- A concrete vector-index match scoring 0.9 against the query. -/
def mHit : VMatch :=
  { score := 9 / 10, question := "q", answer := "cached body"
    mcpSource := "observability", timestamp := 1 }

/-- Environment whose vector index returns `mHit`. -/
def envHit : QueryEnv := { envBase with indexMatches := [mHit] }

/-- Environment injecting an unexpected exception with one message. -/
def envCrashA : QueryEnv := { envBase with crash := some "backend exploded" }

/-- Environment injecting an unexpected exception with another message. -/
def envCrashB : QueryEnv := { envBase with crash := some "different failure" }

/-- Environment whose classification oracle throws. -/
def envThrow : QueryEnv := { envBase with classifyResp := ClassifyOutcome.throws }

/-- A concrete fresh session state. -/
def stEx : AgentState := initialState "session-1" 0

/-! ## Helper lemmas -/

theorem length_addToHistory (h : List ChatMessage) (role : Role) (content : String)
    (now : Nat) :
    (addToHistory h role content now).length = min (h.length + 1) 20 := by
  unfold addToHistory
  dsimp only
  split
  · rename_i hgt
    simp only [List.length_drop, List.length_append, List.length_cons,
      List.length_nil] at *
    omega
  · rename_i hle
    simp only [gt_iff_lt, not_lt, List.length_append, List.length_cons,
      List.length_nil] at *
    omega

theorem addToHistory_eq_drop (h : List ChatMessage) (role : Role) (content : String)
    (now : Nat) :
    addToHistory h role content now =
      (h ++ [({ role := role, content := content, timestamp := now } : ChatMessage)]).drop
        ((h.length + 1) - 20) := by
  unfold addToHistory
  dsimp only
  split
  · rename_i hgt
    congr 1
    simp only [List.length_append, List.length_cons, List.length_nil]
  · rename_i hle
    simp only [gt_iff_lt, not_lt, List.length_append, List.length_cons,
      List.length_nil] at hle
    have h0 : h.length + 1 - 20 = 0 := by omega
    simp [h0]

theorem drop_cap_append (xs ms : List ChatMessage) :
    ((xs.drop (xs.length - 20)) ++ ms).drop
        (((xs.drop (xs.length - 20)) ++ ms).length - 20)
      = (xs ++ ms).drop ((xs ++ ms).length - 20) := by
  have h1 : xs.drop (xs.length - 20) ++ ms = (xs ++ ms).drop (xs.length - 20) :=
    (List.drop_append_of_le_length (Nat.sub_le _ _)).symm
  rw [h1, List.drop_drop]
  congr 1
  simp only [List.length_drop, List.length_append]
  omega

theorem appendMessages_eq_drop :
    ∀ (msgs : List ChatMessage) (h : List ChatMessage), h.length ≤ 20 →
      appendMessages h msgs = (h ++ msgs).drop ((h ++ msgs).length - 20)
  | [], h, hle => by
    have h0 : h.length - 20 = 0 := by omega
    simp [appendMessages, h0]
  | m :: ms, h, hle => by
    show appendMessages (addToHistory h m.role m.content m.timestamp) ms = _
    rw [appendMessages_eq_drop ms _ (by rw [length_addToHistory]; omega)]
    rw [addToHistory_eq_drop]
    have hlen : h.length + 1 - 20 =
        (h ++ [({ role := m.role, content := m.content, timestamp := m.timestamp } : ChatMessage)]).length - 20 := by
      simp
    rw [hlen, drop_cap_append]
    simp only [List.append_assoc, List.cons_append, List.nil_append]

theorem alternatingUA_even :
    ∀ (l : List ChatMessage), alternatingUA l = true → l.length % 2 = 0
  | [], _ => rfl
  | [_], h => by simp [alternatingUA] at h
  | _ :: _ :: rest, h => by
    simp only [alternatingUA, Bool.and_eq_true, decide_eq_true_eq] at h
    have ih := alternatingUA_even rest h.2
    simp only [List.length_cons]
    omega

theorem alternatingUA_append_pair :
    ∀ (l : List ChatMessage), alternatingUA l = true →
      ∀ (u a : ChatMessage), u.role = Role.user → a.role = Role.assistant →
        alternatingUA (l ++ [u, a]) = true
  | [], _, u, a, hu, ha => by simp [alternatingUA, hu, ha]
  | [_], h, _, _, _, _ => by simp [alternatingUA] at h
  | x :: y :: rest, h, u, a, hu, ha => by
    simp only [alternatingUA, Bool.and_eq_true, decide_eq_true_eq] at h
    simp only [List.cons_append, alternatingUA, Bool.and_eq_true, decide_eq_true_eq]
    exact ⟨h.1, alternatingUA_append_pair rest h.2 u a hu ha⟩

theorem alternatingUA_drop_even :
    ∀ (k : Nat) (l : List ChatMessage), alternatingUA l = true →
      alternatingUA (l.drop (2 * k)) = true
  | 0, l, h => h
  | k + 1, [], _ => by simp [alternatingUA]
  | k + 1, [_], h => by simp [alternatingUA] at h
  | k + 1, x :: y :: rest, h => by
    simp only [alternatingUA, Bool.and_eq_true, decide_eq_true_eq] at h
    have h2 : 2 * (k + 1) = 2 * k + 1 + 1 := by omega
    rw [h2, List.drop_succ_cons, List.drop_succ_cons]
    exact alternatingUA_drop_even k rest h.2

/-! ## Claims -/

/-- C1: for every threshold `t`, `search` returns the top vector-index
match exactly when the match list is non-empty and the top score is at
least `t` (equality accepted), and `none` otherwise; in particular at the
default threshold 0.85 an entry scoring exactly 0.85 is returned and one
scoring 0.8499 is not.  (Stated for a successful embedding call; an
embedding failure short-circuits to `none` before the index is
consulted.) -/
theorem c1_search_threshold_boundary :
    (∀ t : ℚ, search true [] t = none)
    ∧ (∀ (m : VMatch) (rest : List VMatch) (t : ℚ),
        search true (m :: rest) t =
          if t ≤ m.score then some (toResult m) else none)
    ∧ search true
        [{ score := 85 / 100, question := "Q", answer := "A"
           mcpSource := "observability", timestamp := 0 }] SIMILARITY_THRESHOLD
        = some { score := 85 / 100, question := "Q", answer := "A"
                 mcpSource := "observability", timestamp := 0 }
    ∧ search true
        [{ score := 8499 / 10000, question := "Q", answer := "A"
           mcpSource := "observability", timestamp := 0 }] SIMILARITY_THRESHOLD
        = none := by
  refine ⟨fun t => rfl, fun m rest t => rfl, ?_, ?_⟩
  · simp [search, SIMILARITY_THRESHOLD]
  · norm_num [search, SIMILARITY_THRESHOLD]

/-- C2 counterexample: an oracle response selecting the absent capability
name `unknown_tool` yields confidence 0.9, not the no-selection intent's
0.5, so the two intents are not identical. -/
theorem c2_counterexample :
    classifyIntent (ClassifyOutcome.resp [{ name := "unknown_tool", arguments := none }])
      ≠ classifyIntent (ClassifyOutcome.resp [])
    ∧ (classifyIntent (ClassifyOutcome.resp
        [{ name := "unknown_tool", arguments := none }])).confidence = 9 / 10
    ∧ (classifyIntent (ClassifyOutcome.resp [])).confidence = 5 / 10 := by
  refine ⟨?_, by norm_num [classifyIntent], by norm_num [classifyIntent]⟩
  intro h
  have := congrArg Intent.confidence h
  norm_num [classifyIntent] at this

/-- C2 (amended): a capability name absent from the static tables maps to
type `general` and `targetCapability` none — the same type and target as
the no-selection intent — but with confidence 0.9 rather than 0.5 and the
oracle-supplied arguments as parameters. -/
theorem c2_unknown_tool_intent
    (toolName : String) (args : Option (List (String × String))) (rest : List ToolCall)
    (h1 : toolName ≠ "query_observability") (h2 : toolName ≠ "search_docs")
    (h3 : toolName ≠ "query_bindings") :
    classifyIntent (ClassifyOutcome.resp ({ name := toolName, arguments := args } :: rest)) =
      { type := IntentType.general, confidence := 9 / 10, targetMCP := none
        parameters := args.getD [] } := by
  simp [classifyIntent, mapToolToIntentType, mapToolToMCP, h1, h2, h3]

/-- Witness for the amended C2 at the concrete absent name `unknown_tool`. -/
theorem c2_unknown_tool_intent_witness :
    classifyIntent (ClassifyOutcome.resp [{ name := "unknown_tool", arguments := none }]) =
      { type := IntentType.general, confidence := 9 / 10, targetMCP := none
        parameters := [] } :=
  c2_unknown_tool_intent "unknown_tool" none [] (by decide) (by decide) (by decide)

/-- C3: on a cache hit, `query` bumps the cache-hit and total-query
counters, leaves every capability-call counter and the conversation
history untouched, and returns the cached answer annotated with the cache
source tag and the similarity score as a percentage with one decimal
place. -/
theorem c3_cache_hit_short_circuit
    (env : QueryEnv) (userMessage : String) (s : AgentState)
    (m : VMatch) (rest : List VMatch)
    (hcrash : env.crash = none) (hembed : env.embedOk = true)
    (hidx : env.indexMatches = m :: rest)
    (hscore : SIMILARITY_THRESHOLD ≤ m.score) :
    query env userMessage s =
      ("[Cached Answer - " ++ m.mcpSource ++ "]\n\n" ++ m.answer
         ++ "\n\n_This answer was retrieved from memory (similarity: "
         ++ toFixed1 (m.score * 100) ++ "%)_",
       { s with
         lastActivity := env.now
         metadata := { s.metadata with
           totalQueries := s.metadata.totalQueries + 1
           cacheHits := s.metadata.cacheHits + 1 } }) := by
  unfold query
  rw [hcrash, hembed, hidx]
  simp [search, hscore, cachedAnswerString]

/-- Witness for C3 at a concrete environment whose index returns a 0.9
match. -/
theorem c3_cache_hit_short_circuit_witness :
    envHit.crash = none ∧ envHit.embedOk = true ∧ envHit.indexMatches = [mHit] ∧
    SIMILARITY_THRESHOLD ≤ mHit.score ∧
    query envHit "q" stEx =
      ("[Cached Answer - " ++ mHit.mcpSource ++ "]\n\n" ++ mHit.answer
         ++ "\n\n_This answer was retrieved from memory (similarity: "
         ++ toFixed1 (mHit.score * 100) ++ "%)_",
       { stEx with
         lastActivity := envHit.now
         metadata := { stEx.metadata with
           totalQueries := stEx.metadata.totalQueries + 1
           cacheHits := stEx.metadata.cacheHits + 1 } }) :=
  ⟨rfl, rfl, rfl, by norm_num [mHit, SIMILARITY_THRESHOLD],
    c3_cache_hit_short_circuit envHit "q" stEx mHit [] rfl rfl rfl
      (by norm_num [mHit, SIMILARITY_THRESHOLD])⟩

set_option maxRecDepth 10000

/-- C4 counterexample: the top-level catch interpolates the caught error's
own message into the returned answer, so the failure is not degraded to
generic guidance only — two crashes with different technical messages
produce different answers, and the raw message appears verbatim in the
answer. -/
theorem c4_counterexample :
    (query envCrashA "q" stEx).1 = createErrorResponse "backend exploded"
    ∧ "backend exploded".data <:+: ((query envCrashA "q" stEx).1).data
    ∧ (query envCrashA "q" stEx).1 ≠ (query envCrashB "q" stEx).1 := by
  refine ⟨rfl, by decide, by decide⟩

/-- C4 (amended): any exception escaping the inner handlers of steps 1-6
is caught at the top level and converted into an apologetic text answer —
never a raw exception or low-level error object — built from a fixed
template that embeds the caught error's message followed by the generic
guidance to rephrase, ask more specifically, and check permissions. -/
theorem c4_top_level_catch
    (env : QueryEnv) (userMessage : String) (s : AgentState) (errMessage : String)
    (hcrash : env.crash = some errMessage) :
    (query env userMessage s).1 = createErrorResponse errMessage
    ∧ createErrorResponse errMessage =
        "I apologize, but I encountered an error processing your request: " ++ errMessage
          ++ "\n\nPlease try:\n- Rephrasing your question\n- Asking a more specific question\n- Checking if your Cloudflare account has the necessary permissions" := by
  unfold query
  rw [hcrash]
  exact ⟨rfl, rfl⟩

/-- Witness for the amended C4 at a concrete crash. -/
theorem c4_top_level_catch_witness :
    envCrashA.crash = some "backend exploded"
    ∧ (query envCrashA "q" stEx).1 = createErrorResponse "backend exploded"
    ∧ createErrorResponse "backend exploded" =
        "I apologize, but I encountered an error processing your request: " ++ "backend exploded"
          ++ "\n\nPlease try:\n- Rephrasing your question\n- Asking a more specific question\n- Checking if your Cloudflare account has the necessary permissions" :=
  ⟨rfl, c4_top_level_catch envCrashA "q" stEx "backend exploded" rfl⟩

/-- C5: every append leaves the history with at most 20 messages (oldest
dropped first), and appending 25 messages to an empty history leaves
exactly the most recent 20 in their original order. -/
theorem c5_history_cap :
    (∀ (h : List ChatMessage) (role : Role) (content : String) (now : Nat),
        (addToHistory h role content now).length ≤ 20)
    ∧ (∀ msgs : List ChatMessage, msgs.length = 25 →
        appendMessages [] msgs = msgs.drop 5) := by
  constructor
  · intro h role content now
    rw [length_addToHistory]
    omega
  · intro msgs h25
    rw [appendMessages_eq_drop msgs [] (by simp)]
    simp [h25]

/-- Witness for C5 on 25 concrete messages. -/
theorem c5_history_cap_witness :
    msgs25.length = 25 ∧ appendMessages [] msgs25 = msgs25.drop 5 :=
  ⟨by decide, c5_history_cap.2 msgs25 (by decide)⟩

/-- C6: when the classification oracle throws, `classifyIntent` returns
exactly the general intent with confidence 0.3 and no target capability,
and `query` (on a cache miss) proceeds through the direct-generation path
— its answer is `generateResponse`'s output and no capability-call
counter moves — returning normally. -/
theorem c6_classifier_failure_fallback
    (env : QueryEnv) (userMessage : String) (s : AgentState)
    (hcrash : env.crash = none)
    (hmiss : search env.embedOk env.indexMatches SIMILARITY_THRESHOLD = none)
    (hclass : env.classifyResp = ClassifyOutcome.throws) :
    classifyIntent env.classifyResp =
      { type := IntentType.general, confidence := 3 / 10, targetMCP := none
        parameters := [] }
    ∧ (query env userMessage s).1 = generateResponse env.genResp userMessage
    ∧ (query env userMessage s).2.metadata.mcpCalls = s.metadata.mcpCalls := by
  unfold query
  rw [hcrash, hmiss, hclass]
  refine ⟨rfl, ?_, ?_⟩ <;> simp [classifyIntent, finishQuery]

/-- Witness for C6 at a concrete environment with an empty index and a
throwing classifier. -/
theorem c6_classifier_failure_fallback_witness :
    envThrow.crash = none
    ∧ search envThrow.embedOk envThrow.indexMatches SIMILARITY_THRESHOLD = none
    ∧ envThrow.classifyResp = ClassifyOutcome.throws
    ∧ classifyIntent envThrow.classifyResp =
        { type := IntentType.general, confidence := 3 / 10, targetMCP := none
          parameters := [] }
    ∧ (query envThrow "q" stEx).1 = generateResponse envThrow.genResp "q"
    ∧ (query envThrow "q" stEx).2.metadata.mcpCalls = stEx.metadata.mcpCalls :=
  ⟨rfl, rfl, rfl,
    (c6_classifier_failure_fallback envThrow "q" stEx rfl rfl rfl).1,
    (c6_classifier_failure_fallback envThrow "q" stEx rfl rfl rfl).2.1,
    (c6_classifier_failure_fallback envThrow "q" stEx rfl rfl rfl).2.2⟩

/-- C7: for an intent targeting a capability, `route` never throws: if the
targeted provider fails, it returns a `RoutedResult` whose source is the
failing capability and whose data is the structured payload
`{error: true, message, suggestion}`; an unknown/unmapped target is
caught the same way, with the `Unknown MCP target` message. -/
theorem c7_route_catches_failures
    (provider : String → Except String MCPData) (now : Nat) (intent : Intent)
    (t errMessage : String) (htarget : intent.targetMCP = some t) :
    ((t = "observability" ∨ t = "documentation" ∨ t = "bindings") →
      provider t = Except.error errMessage →
      route provider now intent =
        { source := t
          data := MCPData.err
            { error := true, message := errMessage, suggestion := routerSuggestion }
          timestamp := now
          cached := false })
    ∧ (t ≠ "observability" → t ≠ "documentation" → t ≠ "bindings" →
      route provider now intent =
        { source := t
          data := MCPData.err
            { error := true, message := "Unknown MCP target: " ++ t
              suggestion := routerSuggestion }
          timestamp := now
          cached := false }) := by
  constructor
  · intro hknown hfail
    have hswitch : routeSwitch provider t = Except.error errMessage := by
      rcases hknown with h | h | h <;> subst h <;> simp [routeSwitch, hfail]
    simp [route, htarget, hswitch]
  · intro h1 h2 h3
    have hswitch : routeSwitch provider t = Except.error ("Unknown MCP target: " ++ t) := by
      simp [routeSwitch, h1, h2, h3]
    simp [route, htarget, hswitch]

/-- Witness for C7: a failing observability provider, and an unmapped
target name. -/
theorem c7_route_catches_failures_witness :
    route (fun _ => Except.error "mcp down") 7
        { type := IntentType.error_logs, confidence := 9 / 10
          targetMCP := some "observability", parameters := [] } =
      { source := "observability"
        data := MCPData.err
          { error := true, message := "mcp down", suggestion := routerSuggestion }
        timestamp := 7
        cached := false }
    ∧ route (fun _ => Except.ok MCPData.null) 7
        { type := IntentType.general, confidence := 9 / 10
          targetMCP := some "bogus", parameters := [] } =
      { source := "bogus"
        data := MCPData.err
          { error := true, message := "Unknown MCP target: " ++ "bogus"
            suggestion := routerSuggestion }
        timestamp := 7
        cached := false } :=
  ⟨(c7_route_catches_failures (fun _ => Except.error "mcp down") 7
      { type := IntentType.error_logs, confidence := 9 / 10
        targetMCP := some "observability", parameters := [] }
      "observability" "mcp down" rfl).1 (Or.inl rfl) rfl,
   (c7_route_catches_failures (fun _ => Except.ok MCPData.null) 7
      { type := IntentType.general, confidence := 9 / 10
        targetMCP := some "bogus", parameters := [] }
      "bogus" "unused" rfl).2 (by decide) (by decide) (by decide)⟩

theorem query_metadata_step (env : QueryEnv) (q : String) (s : AgentState) :
    (query env q s).2.metadata.totalQueries = s.metadata.totalQueries + 1
    ∧ ((query env q s).2.metadata.cacheHits = s.metadata.cacheHits
       ∨ (query env q s).2.metadata.cacheHits = s.metadata.cacheHits + 1) := by
  cases hc : env.crash with
  | some m => simp [query, hc]
  | none =>
    cases hs : search env.embedOk env.indexMatches SIMILARITY_THRESHOLD with
    | some r => simp [query, hc, hs]
    | none =>
      cases ht : (classifyIntent env.classifyResp).targetMCP with
      | some t => simp [query, hc, hs, ht, finishQuery]
      | none => simp [query, hc, hs, ht, finishQuery]

theorem query_history_step (env : QueryEnv) (q : String) (s : AgentState) :
    (query env q s).2.conversationHistory = s.conversationHistory
    ∨ ∃ response,
        (query env q s).2.conversationHistory =
          addToHistory (addToHistory s.conversationHistory Role.user q env.now)
            Role.assistant response env.now := by
  cases hc : env.crash with
  | some m => left; simp [query, hc]
  | none =>
    cases hs : search env.embedOk env.indexMatches SIMILARITY_THRESHOLD with
    | some r => left; simp [query, hc, hs]
    | none =>
      cases ht : (classifyIntent env.classifyResp).targetMCP with
      | some t =>
        right
        refine ⟨synthesize env.synthResp q
          (route env.provider env.now (classifyIntent env.classifyResp)).data
          (getConversationContext s.conversationHistory), ?_⟩
        simp [query, hc, hs, ht, finishQuery]
      | none =>
        right
        refine ⟨generateResponse env.genResp q, ?_⟩
        simp [query, hc, hs, ht, finishQuery]

theorem addTwo_eq_appendMessages (h : List ChatMessage) (q response : String) (now : Nat) :
    addToHistory (addToHistory h Role.user q now) Role.assistant response now =
      appendMessages h
        [{ role := Role.user, content := q, timestamp := now },
         { role := Role.assistant, content := response, timestamp := now }] := rfl

theorem inv8_foldl :
    ∀ (ops : List Op) (s : AgentState),
      s.metadata.cacheHits ≤ s.metadata.totalQueries →
      (ops.foldl applyOp s).metadata.cacheHits ≤ (ops.foldl applyOp s).metadata.totalQueries
  | [], _, h => h
  | op :: ops, s, h => by
    show (ops.foldl applyOp (applyOp s op)).metadata.cacheHits ≤ _
    refine inv8_foldl ops (applyOp s op) ?_
    cases op with
    | opQuery env q =>
      show (query env q s).2.metadata.cacheHits ≤ (query env q s).2.metadata.totalQueries
      rcases query_metadata_step env q s with ⟨ht, hh | hh⟩ <;> omega
    | opClearHistory => exact h
    | opConnectMCPs => exact h
    | opGetHistory => exact h
    | opGetStats => exact h

theorem inv9_step (s : AgentState) (op : Op)
    (hf : alternatingUA s.conversationHistory = true)
    (hl : s.conversationHistory.length ≤ 20) :
    alternatingUA (applyOp s op).conversationHistory = true
    ∧ (applyOp s op).conversationHistory.length ≤ 20 := by
  cases op with
  | opQuery env q =>
    show alternatingUA (query env q s).2.conversationHistory = true
      ∧ (query env q s).2.conversationHistory.length ≤ 20
    rcases query_history_step env q s with heq | ⟨response, heq⟩
    · rw [heq]; exact ⟨hf, hl⟩
    · rw [heq, addTwo_eq_appendMessages, appendMessages_eq_drop _ _ hl]
      have he := alternatingUA_even _ hf
      obtain ⟨k, hk⟩ :
          ∃ k, (s.conversationHistory
              ++ [({ role := Role.user, content := q, timestamp := env.now } : ChatMessage),
                  { role := Role.assistant, content := response, timestamp := env.now }]).length
              - 20 = 2 * k := by
        refine ⟨((s.conversationHistory.length + 2) - 20) / 2, ?_⟩
        simp only [List.length_append, List.length_cons, List.length_nil]
        omega
      constructor
      · rw [hk]
        exact alternatingUA_drop_even k _
          (alternatingUA_append_pair _ hf _ _ rfl rfl)
      · simp only [List.length_drop, List.length_append, List.length_cons, List.length_nil]
        omega
  | opClearHistory => exact ⟨rfl, Nat.zero_le 20⟩
  | opConnectMCPs => exact ⟨hf, hl⟩
  | opGetHistory => exact ⟨hf, hl⟩
  | opGetStats => exact ⟨hf, hl⟩

theorem inv9_foldl :
    ∀ (ops : List Op) (s : AgentState),
      alternatingUA s.conversationHistory = true →
      s.conversationHistory.length ≤ 20 →
      alternatingUA (ops.foldl applyOp s).conversationHistory = true
      ∧ (ops.foldl applyOp s).conversationHistory.length ≤ 20
  | [], _, hf, hl => ⟨hf, hl⟩
  | op :: ops, s, hf, hl => by
    show alternatingUA ((ops.foldl applyOp (applyOp s op)).conversationHistory) = true ∧ _
    have step := inv9_step s op hf hl
    exact inv9_foldl ops (applyOp s op) step.1 step.2

/-- C8: in every state reachable from the initial state by any sequence of
query, clear-history, connect, get-history and get-stats operations, the
cache-hit counter never exceeds the total-query counter. -/
theorem c8_cache_hits_le_total_queries (sessionId : String) (now : Nat) (ops : List Op) :
    (runOps sessionId now ops).metadata.cacheHits
      ≤ (runOps sessionId now ops).metadata.totalQueries :=
  inv8_foldl ops (initialState sessionId now) (Nat.le_refl 0)

/-- C9: in every reachable state, observed at operation boundaries, the
conversation history has even length and strictly alternates a user
message followed by an assistant message. -/
theorem c9_history_alternates (sessionId : String) (now : Nat) (ops : List Op) :
    alternatingUA (runOps sessionId now ops).conversationHistory = true
    ∧ (runOps sessionId now ops).conversationHistory.length % 2 = 0 := by
  have h := inv9_foldl ops (initialState sessionId now) rfl (Nat.zero_le 20)
  exact ⟨h.1, alternatingUA_even _ h.1⟩

/-- C10: `clearHistory` empties the conversation history and leaves the
session identifier, connection flags, activity timestamp and all metadata
counters unchanged. -/
theorem c10_clear_history_frame (s : AgentState) :
    (clearHistory s).conversationHistory = []
    ∧ (clearHistory s).sessionId = s.sessionId
    ∧ (clearHistory s).mcpConnections = s.mcpConnections
    ∧ (clearHistory s).lastActivity = s.lastActivity
    ∧ (clearHistory s).metadata = s.metadata :=
  ⟨rfl, rfl, rfl, rfl, rfl⟩
